import Mathlib

/-!
Shallow embedding of the appointment-lifecycle core of the
telemedicine platform (Express + Mongoose controllers).

Sources embedded here:
  - server/controllers/appointmentController.js
      (bookAppointment, getMyAppointments, updateAppointmentStatus)
  - server/controllers/paymentController.js
      (createPayment, updatePaymentStatus)
  - server/controllers/prescriptionController.js
      (createPrescription, updatePrescription, startConsultation)
  - server/models/appointment.js, payment.js, prescription.js (schemas)

Conventions of the embedding:
  - Mongo ObjectIds are Nat, instants are Int (milliseconds since epoch,
    as produced by Date.getTime()).
  - Each collection is a List of records; findById / findOne are List.find?.
  - Each controller returns (Except ErrResp a) x DB: ErrResp carries the
    exact HTTP status code and message string of the source response, and
    the DB component is the post-state of the store.
  - JavaScript truthiness of optional request fields is modelled exactly:
    an absent field is none, an empty string is falsy, a list (array) is
    always truthy.
  - Mongoose save-time validation that the controllers rely on is
    modelled where it matters: the `required` check on non-empty strings
    of the prescription schema and the unique index on
    `payments.transactionId` (a violation surfaces as the controllers'
    catch-all 500 "Server error").
-/

inductive Role where
  | patient
  | doctor
  | admin
deriving DecidableEq, Repr

structure User where
  id : Nat
  role : Role
deriving DecidableEq, Repr

/-- Appointment statuses: the enum of server/models/appointment.js. -/
inductive ApptStatus where
  | pending
  | confirmed
  | paid
  | consultation
  | completed
  | cancelled
deriving DecidableEq, Repr

def ApptStatus.toStr : ApptStatus → String
  | .pending => "pending"
  | .confirmed => "confirmed"
  | .paid => "paid"
  | .consultation => "consultation"
  | .completed => "completed"
  | .cancelled => "cancelled"

/-- The `includes` check of updateAppointmentStatus, refactored as a parse:
it succeeds exactly on the six strings of the appointment status enum. -/
def parseApptStatus (s : String) : Option ApptStatus :=
  if s = "pending" then some .pending
  else if s = "confirmed" then some .confirmed
  else if s = "paid" then some .paid
  else if s = "consultation" then some .consultation
  else if s = "completed" then some .completed
  else if s = "cancelled" then some .cancelled
  else none

/-- Payment statuses: the enum of server/models/payment.js. -/
inductive PayStatus where
  | pending
  | completed
  | failed
  | cancelled
deriving DecidableEq, Repr

/-- The `includes` check of updatePaymentStatus as a parse. -/
def parsePayStatus (s : String) : Option PayStatus :=
  if s = "pending" then some .pending
  else if s = "completed" then some .completed
  else if s = "failed" then some .failed
  else if s = "cancelled" then some .cancelled
  else none

/-- Prescription statuses: the enum of server/models/prescription.js. -/
inductive PrescStatus where
  | active
  | completed
  | cancelled
deriving DecidableEq, Repr

/-- Supported payment channels: the paymentMethod enum of
server/models/payment.js. -/
inductive PayMethod where
  | telebirr
  | cbe_birr
  | dashen_bank
  | awash_bank
  | bank_of_abyssinia
  | united_bank
  | lion_bank
  | cooperative_bank
  | nib_bank
  | wegagen_bank
deriving DecidableEq, Repr

/-- The paymentDetails subdocument of server/models/payment.js
(all subfields optional strings). -/
structure PaymentDetails where
  phoneNumber : Option String := none
  accountNumber : Option String := none
  bankName : Option String := none
  referenceNumber : Option String := none
deriving DecidableEq, Repr

structure Appointment where
  id : Nat
  patientId : Nat
  doctorId : Nat
  dateTime : Int
  note : Option String
  status : ApptStatus
  createdAt : Int
deriving DecidableEq, Repr

structure Payment where
  id : Nat
  appointmentId : Nat
  patientId : Nat
  doctorId : Nat
  amount : Nat
  currency : String
  paymentMethod : PayMethod
  transactionId : String
  paymentDetails : PaymentDetails
  notes : String
  status : PayStatus
  createdAt : Int
  updatedAt : Int
deriving DecidableEq, Repr

/-- A medication line item of the prescription schema; name, dosage,
frequency and duration are `required` (mongoose rejects the empty
string), instructions and quantity optional. -/
structure Medication where
  name : String
  dosage : String
  frequency : String
  duration : String
  instructions : Option String := none
  quantity : Option String := none
deriving DecidableEq, Repr

structure Prescription where
  id : Nat
  appointmentId : Nat
  doctorId : Nat
  patientId : Nat
  diagnosis : String
  medications : List Medication
  instructions : Option String
  followUpDate : Option String
  notes : Option String
  status : PrescStatus
  createdAt : Int
  updatedAt : Int
deriving DecidableEq, Repr

/-- The persistent store: the users, appointments, payments and
prescriptions collections. -/
structure DB where
  users : List User
  appointments : List Appointment
  payments : List Payment
  prescriptions : List Prescription
deriving DecidableEq, Repr

/-- An error response: HTTP status code plus the message string sent by
the controller. -/
structure ErrResp where
  code : Nat
  message : String
deriving DecidableEq, Repr

instance {e a : Type} [DecidableEq e] [DecidableEq a] : DecidableEq (Except e a) := fun x y =>
  match x, y with
  | .ok u, .ok v =>
    if h : u = v then isTrue (h ▸ rfl) else isFalse (fun hh => h (Except.ok.inj hh))
  | .error u, .error v =>
    if h : u = v then isTrue (h ▸ rfl) else isFalse (fun hh => h (Except.error.inj hh))
  | .ok _, .error _ => isFalse (fun hh => Except.noConfusion hh)
  | .error _, .ok _ => isFalse (fun hh => Except.noConfusion hh)

/-- Modelled from the spec: the failure taxonomy of section 7 applied to
the concrete (code, message) responses of the controllers, so that
claims phrased in taxonomy terms (NotFound, Forbidden,
FailedPrecondition, InvalidArgument, Conflict) can be stated against the
embedded responses. -/
inductive ErrCategory where
  | notFound
  | forbidden
  | failedPrecondition
  | invalidArgument
  | conflict
  | internal
deriving DecidableEq, Repr

/-- Modelled from the spec: section 7 maps 404 to NotFound, 403 to
Forbidden, 500 to Internal, and splits the controllers' 400 responses by
message: malformed values are InvalidArgument, state-machine violations
(including "already paid") are FailedPrecondition, duplicate or
overlapping conditions are Conflict. -/
def errCategory (e : ErrResp) : ErrCategory :=
  if e.code = 404 then .notFound
  else if e.code = 403 then .forbidden
  else if e.code = 500 then .internal
  else if e.message = "Invalid status" then .invalidArgument
  else if e.message = "Appointment must be in the future" then .invalidArgument
  else if e.message = "Time slot not available" then .conflict
  else if e.message = "Payment already exists for this appointment" then .conflict
  else if e.message = "Prescription already exists for this appointment" then .conflict
  else if e.message = "Appointment must be confirmed before payment" then .failedPrecondition
  else if e.message = "Payment already completed for this appointment" then .failedPrecondition
  else if e.message = "Appointment must be paid before starting consultation" then .failedPrecondition
  else if e.message = "Appointment must be in consultation status" then .failedPrecondition
  else .internal

/-- Replace, in the appointments collection, the record whose id matches
the saved document (mongoose document save after in-place mutation). -/
def setAppt (db : DB) (a2 : Appointment) : DB :=
  { db with appointments := db.appointments.map (fun a => if a.id == a2.id then a2 else a) }

def setPayment (db : DB) (p2 : Payment) : DB :=
  { db with payments := db.payments.map (fun p => if p.id == p2.id then p2 else p) }

def setPrescription (db : DB) (p2 : Prescription) : DB :=
  { db with prescriptions := db.prescriptions.map (fun p => if p.id == p2.id then p2 else p) }

/-- Appointment.findByIdAndUpdate(id, \x7b status \x7d): updates the matching
document in place; a no-op when no document has that id. -/
def findByIdAndUpdateStatus (db : DB) (aid : Nat) (st : ApptStatus) : DB :=
  { db with appointments := db.appointments.map (fun a => if a.id == aid then { a with status := st } else a) }

/-- bookAppointment of appointmentController.js. `now` is the instant the
two `new Date()` calls observe; `freshId` the id mongo assigns on insert. -/
def bookAppointment (db : DB) (now : Int) (caller : User) (doctorId : Nat)
    (dateTime : Int) (note : Option String) (freshId : Nat) :
    Except ErrResp Appointment × DB :=
  match db.users.find? (fun u => u.id == doctorId) with
  | none => (.error ⟨404, "Doctor not found"⟩, db)
  | some doctor =>
    if doctor.role ≠ Role.doctor then (.error ⟨404, "Doctor not found"⟩, db)
    else if dateTime ≤ now then (.error ⟨400, "Appointment must be in the future"⟩, db)
    else if db.appointments.any (fun a =>
        decide (a.doctorId = doctorId ∧
          dateTime - 30 * 60000 ≤ a.dateTime ∧ a.dateTime ≤ dateTime + 30 * 60000 ∧
          (a.status = ApptStatus.pending ∨ a.status = ApptStatus.confirmed))) then
      (.error ⟨400, "Time slot not available"⟩, db)
    else
      let appt : Appointment :=
        { id := freshId, patientId := caller.id, doctorId := doctorId,
          dateTime := dateTime, note := note, status := ApptStatus.pending,
          createdAt := now }
      (.ok appt, { db with appointments := db.appointments ++ [appt] })

/-- Relation used for the `.sort(\x7b dateTime: 1 \x7d)` listings. -/
def dtLE (a b : Appointment) : Prop := a.dateTime ≤ b.dateTime

instance : DecidableRel dtLE := fun a b => Int.decLe a.dateTime b.dateTime

instance : IsTotal Appointment dtLE := ⟨fun a b => Int.le_total a.dateTime b.dateTime⟩

instance : IsTrans Appointment dtLE := ⟨fun _ _ _ hab hbc => Int.le_trans hab hbc⟩

/-- The mongo filter built by getMyAppointments: participant constraint by
caller role, optional status filter (skipped when the query value is the
falsy empty string), optional upcoming filter (only when the query value
is exactly the string "true"). -/
def apptFilterPred (now : Int) (caller : User) (statusq upcoming : Option String)
    (a : Appointment) : Bool :=
  (match caller.role with
   | Role.patient => a.patientId == caller.id
   | Role.doctor => a.doctorId == caller.id
   | Role.admin => true)
  && (match statusq with
      | some s => if s = "" then true else a.status.toStr == s
      | none => true)
  && (if upcoming == some "true" then decide (now ≤ a.dateTime) else true)

/-- getMyAppointments of appointmentController.js: filter then sort by
dateTime ascending. -/
def getMyAppointments (db : DB) (now : Int) (caller : User)
    (statusq upcoming : Option String) : List Appointment :=
  List.insertionSort dtLE (db.appointments.filter (apptFilterPred now caller statusq upcoming))

/-- updateAppointmentStatus of appointmentController.js: enum check on
the raw status string first, then findById, then doctor-ownership check,
then unconditional assignment of the new status. -/
def updateAppointmentStatus (db : DB) (caller : User) (id : Nat)
    (statusRaw : String) : Except ErrResp Appointment × DB :=
  match parseApptStatus statusRaw with
  | none => (.error ⟨400, "Invalid status"⟩, db)
  | some st =>
    match db.appointments.find? (fun a => a.id == id) with
    | none => (.error ⟨404, "Appointment not found"⟩, db)
    | some appt =>
      if appt.doctorId ≠ caller.id then (.error ⟨403, "Not authorized"⟩, db)
      else
        let appt2 := { appt with status := st }
        (.ok appt2, setAppt db appt2)

/-- The flat consultation fee of paymentController.js (baseAmount, ETB). -/
def baseAmount : Nat := 500

/-- createPayment of paymentController.js. `freshTxn` is the value
generateTransactionId() returned; `freshId` the id mongo would assign on
insert. The final arm of the existing-payment analysis mirrors the
source's explicit `failed || cancelled` branch: PayStatus has exactly
four values, so after the completed and pending rejections that branch
is the only remaining case and the source's fall-through is dead code.
The unique index on transactionId makes a colliding save surface as the
catch-all 500. -/
def createPayment (db : DB) (now : Int) (caller : User) (appointmentId : Nat)
    (paymentMethod : PayMethod) (paymentDetails : PaymentDetails)
    (freshTxn : String) (freshId : Nat) : Except ErrResp Payment × DB :=
  match db.appointments.find? (fun a => a.id == appointmentId) with
  | none => (.error ⟨404, "Appointment not found"⟩, db)
  | some appt =>
    if appt.patientId ≠ caller.id then
      (.error ⟨403, "Not authorized to pay for this appointment"⟩, db)
    else if appt.status ≠ ApptStatus.confirmed then
      (.error ⟨400, "Appointment must be confirmed before payment"⟩, db)
    else
      match db.payments.find? (fun p => p.appointmentId == appointmentId) with
      | some ex =>
        if ex.status = PayStatus.completed then
          (.error ⟨400, "Payment already completed for this appointment"⟩, db)
        else if ex.status = PayStatus.pending then
          (.error ⟨400, "Payment already exists for this appointment"⟩, db)
        else
          let ex2 := { ex with paymentMethod := paymentMethod,
                               paymentDetails := paymentDetails,
                               transactionId := freshTxn,
                               status := PayStatus.pending,
                               notes := "", updatedAt := now }
          if db.payments.any (fun q => decide (q.id ≠ ex.id) && (q.transactionId == freshTxn)) then
            (.error ⟨500, "Server error"⟩, db)
          else (.ok ex2, setPayment db ex2)
      | none =>
        let p : Payment :=
          { id := freshId, appointmentId := appointmentId,
            patientId := caller.id, doctorId := appt.doctorId,
            amount := baseAmount, currency := "ETB",
            paymentMethod := paymentMethod, transactionId := freshTxn,
            paymentDetails := paymentDetails, notes := "",
            status := PayStatus.pending, createdAt := now, updatedAt := now }
        if db.payments.any (fun q => q.transactionId == freshTxn) then
          (.error ⟨500, "Server error"⟩, db)
        else (.ok p, { db with payments := db.payments ++ [p] })

/-- updatePaymentStatus of paymentController.js: enum check, findById,
participant-or-admin authorization, then assign status (and notes when
truthy), save, and — when the new status is completed — force the linked
appointment to paid via findByIdAndUpdate. -/
def updatePaymentStatus (db : DB) (now : Int) (caller : User) (id : Nat)
    (statusRaw : String) (notes : Option String) : Except ErrResp Payment × DB :=
  match parsePayStatus statusRaw with
  | none => (.error ⟨400, "Invalid status"⟩, db)
  | some st =>
    match db.payments.find? (fun p => p.id == id) with
    | none => (.error ⟨404, "Payment not found"⟩, db)
    | some p =>
      if ¬ (p.patientId = caller.id ∨ p.doctorId = caller.id ∨ caller.role = Role.admin) then
        (.error ⟨403, "Not authorized"⟩, db)
      else
        let p2 := { p with status := st,
                           notes := (match notes with
                                     | some n => if n = "" then p.notes else n
                                     | none => p.notes),
                           updatedAt := now }
        let db1 := setPayment db p2
        let db2 := if st = PayStatus.completed
                   then findByIdAndUpdateStatus db1 p2.appointmentId ApptStatus.paid
                   else db1
        (.ok p2, db2)

/-- startConsultation of prescriptionController.js. -/
def startConsultation (db : DB) (caller : User) (appointmentId : Nat) :
    Except ErrResp Appointment × DB :=
  match db.appointments.find? (fun a => a.id == appointmentId) with
  | none => (.error ⟨404, "Appointment not found"⟩, db)
  | some appt =>
    if appt.doctorId ≠ caller.id then (.error ⟨403, "Not authorized"⟩, db)
    else if appt.status ≠ ApptStatus.paid then
      (.error ⟨400, "Appointment must be paid before starting consultation"⟩, db)
    else
      let appt2 := { appt with status := ApptStatus.consultation }
      (.ok appt2, setAppt db appt2)

/-- Mongoose `required` validation on a medication line item: the four
required string paths reject the empty string. -/
def medicationValid (m : Medication) : Bool :=
  decide (m.name ≠ "" ∧ m.dosage ≠ "" ∧ m.frequency ≠ "" ∧ m.duration ≠ "")

/-- Mongoose save-time validation of a prescription document. -/
def prescriptionDocValid (p : Prescription) : Bool :=
  decide (p.diagnosis ≠ "") && p.medications.all medicationValid

/-- createPrescription of prescriptionController.js. A document failing
the schema's required checks makes save() throw, surfacing as the
catch-all 500. The JS ternary `followUpDate ? new Date(followUpDate) :
null` treats the falsy empty string as null. -/
def createPrescription (db : DB) (now : Int) (caller : User) (appointmentId : Nat)
    (diagnosis : String) (medications : List Medication)
    (instructions : Option String) (followUpDate : Option String)
    (notes : Option String) (freshId : Nat) : Except ErrResp Prescription × DB :=
  match db.appointments.find? (fun a => a.id == appointmentId) with
  | none => (.error ⟨404, "Appointment not found"⟩, db)
  | some appt =>
    if appt.doctorId ≠ caller.id then
      (.error ⟨403, "Not authorized to create prescription for this appointment"⟩, db)
    else if appt.status ≠ ApptStatus.consultation then
      (.error ⟨400, "Appointment must be in consultation status"⟩, db)
    else
      match db.prescriptions.find? (fun p => p.appointmentId == appointmentId) with
      | some _ => (.error ⟨400, "Prescription already exists for this appointment"⟩, db)
      | none =>
        let p : Prescription :=
          { id := freshId, appointmentId := appointmentId,
            doctorId := caller.id, patientId := appt.patientId,
            diagnosis := diagnosis, medications := medications,
            instructions := instructions,
            followUpDate := (match followUpDate with
                             | some s => if s = "" then none else some s
                             | none => none),
            notes := notes, status := PrescStatus.active,
            createdAt := now, updatedAt := now }
        if prescriptionDocValid p then
          (.ok p, { db with prescriptions := db.prescriptions ++ [p] })
        else (.error ⟨500, "Server error"⟩, db)

/-- The update request body of updatePrescription: none is an absent
field. The status field is one of the schema's enum values when present
(an out-of-enum string would fail the save-time enum validation). -/
structure PrescriptionUpdateReq where
  diagnosis : Option String := none
  medications : Option (List Medication) := none
  instructions : Option String := none
  followUpDate : Option String := none
  notes : Option String := none
  status : Option PrescStatus := none
deriving DecidableEq, Repr

/-- The field-assignment block of updatePrescription: each field is
assigned only when the request value is truthy — for the string fields
the empty string is falsy and skipped, while a present medications array
is always truthy (even when empty) and overwrites. -/
def applyPrescriptionUpdate (p : Prescription) (now : Int)
    (req : PrescriptionUpdateReq) : Prescription :=
  { p with
    diagnosis := (match req.diagnosis with
                  | some s => if s = "" then p.diagnosis else s
                  | none => p.diagnosis),
    medications := (match req.medications with
                    | some ms => ms
                    | none => p.medications),
    instructions := (match req.instructions with
                     | some s => if s = "" then p.instructions else some s
                     | none => p.instructions),
    followUpDate := (match req.followUpDate with
                     | some s => if s = "" then p.followUpDate else some s
                     | none => p.followUpDate),
    notes := (match req.notes with
              | some s => if s = "" then p.notes else some s
              | none => p.notes),
    status := (match req.status with
               | some st => st
               | none => p.status),
    updatedAt := now }

/-- updatePrescription of prescriptionController.js: lookup, then
doctor-or-admin authorization, then the truthiness-guarded field
assignments, then save. An updated document failing schema validation
makes save() throw (catch-all 500) and leaves the store unchanged. -/
def updatePrescription (db : DB) (now : Int) (caller : User) (id : Nat)
    (req : PrescriptionUpdateReq) : Except ErrResp Prescription × DB :=
  match db.prescriptions.find? (fun p => p.id == id) with
  | none => (.error ⟨404, "Prescription not found"⟩, db)
  | some p =>
    if ¬ (p.doctorId = caller.id ∨ caller.role = Role.admin) then
      (.error ⟨403, "Not authorized"⟩, db)
    else
      let p2 := applyPrescriptionUpdate p now req
      if prescriptionDocValid p2 then (.ok p2, setPrescription db p2)
      else (.error ⟨500, "Server error"⟩, db)

/-- Modelled from the spec: the transition graph of section 4.1
(pending to confirmed or cancelled, confirmed to cancelled, paid or
completed, paid to consultation). -/
def specAllowedTransition : ApptStatus → ApptStatus → Bool
  | .pending, .confirmed => true
  | .pending, .cancelled => true
  | .confirmed, .cancelled => true
  | .confirmed, .paid => true
  | .confirmed, .completed => true
  | .paid, .consultation => true
  | _, _ => false

/-- Lookup helpers used to state the claims. -/
def findAppt (db : DB) (id : Nat) : Option Appointment :=
  db.appointments.find? (fun a => a.id == id)

def findPaymentById (db : DB) (id : Nat) : Option Payment :=
  db.payments.find? (fun p => p.id == id)

def findPaymentByAppt (db : DB) (aid : Nat) : Option Payment :=
  db.payments.find? (fun p => p.appointmentId == aid)

def findPrescById (db : DB) (id : Nat) : Option Prescription :=
  db.prescriptions.find? (fun p => p.id == id)

def findPrescByAppt (db : DB) (aid : Nat) : Option Prescription :=
  db.prescriptions.find? (fun p => p.appointmentId == aid)

/-- At most one prescription per appointment in the store. -/
def atMostOnePrescPerAppt (l : List Prescription) : Prop :=
  ∀ aid : Nat, (l.filter (fun p => p.appointmentId == aid)).length ≤ 1

/-! ## Helper lemmas about the store operations -/

theorem find?_map_of_key {α : Type} (key : α → Nat) (f : α → α) (k : Nat)
    (hf : ∀ y, key (f y) = key y) :
    ∀ l : List α, (l.map f).find? (fun y => key y == k) = (l.find? (fun y => key y == k)).map f := by
  intro l
  induction l with
  | nil => rfl
  | cons a t ih =>
    simp only [List.map_cons, List.find?]
    rw [hf a]
    cases h : key a == k
    · exact ih
    · rfl

theorem apptSetFun_id (a2 : Appointment) :
    ∀ y : Appointment, (if y.id == a2.id then a2 else y).id = y.id := by
  intro y
  by_cases c : y.id = a2.id
  · simp [c]
  · simp [c]

theorem paySetFun_id (p2 : Payment) :
    ∀ q : Payment, (if q.id == p2.id then p2 else q).id = q.id := by
  intro q
  by_cases c : q.id = p2.id
  · simp [c]
  · simp [c]

theorem prescSetFun_id (p2 : Prescription) :
    ∀ q : Prescription, (if q.id == p2.id then p2 else q).id = q.id := by
  intro q
  by_cases c : q.id = p2.id
  · simp [c]
  · simp [c]

theorem findAppt_setAppt {db : DB} {k : Nat} {a : Appointment} (a2 : Appointment)
    (h : findAppt db k = some a) (hid : a2.id = a.id) :
    findAppt (setAppt db a2) k = some a2 := by
  unfold findAppt setAppt at *
  rw [find?_map_of_key Appointment.id _ k (apptSetFun_id a2), h, Option.map_some']
  have hb : (a.id == a2.id) = true := by simp [hid]
  simp [hb]

theorem findPaymentById_setPayment {db : DB} {k : Nat} {p : Payment} (p2 : Payment)
    (h : findPaymentById db k = some p) (hid : p2.id = p.id) :
    findPaymentById (setPayment db p2) k = some p2 := by
  unfold findPaymentById setPayment at *
  rw [find?_map_of_key Payment.id _ k (paySetFun_id p2), h, Option.map_some']
  have : (p.id == p2.id) = true := by simp [hid]
  simp [this]

theorem findPrescById_setPrescription {db : DB} {k : Nat} {p : Prescription} (p2 : Prescription)
    (h : findPrescById db k = some p) (hid : p2.id = p.id) :
    findPrescById (setPrescription db p2) k = some p2 := by
  unfold findPrescById setPrescription at *
  rw [find?_map_of_key Prescription.id _ k (prescSetFun_id p2), h, Option.map_some']
  have : (p.id == p2.id) = true := by simp [hid]
  simp [this]

theorem findAppt_forceStatus {db : DB} {k : Nat} {a : Appointment} (st : ApptStatus)
    (h : findAppt db k = some a) :
    findAppt (findByIdAndUpdateStatus db k st) k = some { a with status := st } := by
  unfold findAppt findByIdAndUpdateStatus at *
  have hk : (a.id == k) = true := @List.find?_some _ (fun x => x.id == k) a db.appointments h
  rw [find?_map_of_key Appointment.id _ k (fun y => by by_cases c : y.id = k <;> simp [c]), h,
    Option.map_some']
  simp [hk]

theorem findAppt_setPayment (db : DB) (p2 : Payment) (k : Nat) :
    findAppt (setPayment db p2) k = findAppt db k := rfl

theorem findPaymentById_forceStatus (db : DB) (aid : Nat) (st : ApptStatus) (k : Nat) :
    findPaymentById (findByIdAndUpdateStatus db aid st) k = findPaymentById db k := rfl

/-- Raw strings of the appointment status enum, as listed in
updateAppointmentStatus. -/
def apptStatusStrings : List String :=
  ["pending", "confirmed", "paid", "consultation", "completed", "cancelled"]

theorem parseApptStatus_eq_none_iff (s : String) :
    parseApptStatus s = none ↔ s ∉ apptStatusStrings := by
  unfold parseApptStatus apptStatusStrings
  split_ifs <;> simp_all

/-! ## Claim C10 -/

/-- C10: in updateAppointmentStatus the new-status enum membership is
validated before the appointment is looked up: a status value outside
the six-string enum yields the 400 "Invalid status" response
(InvalidArgument) even when the referenced appointment does not exist,
and the 404 "Appointment not found" response (NotFound) can only occur
for requests whose status value is in the enum. -/
theorem claim10_enum_checked_before_lookup (db : DB) (caller : User) (id : Nat) (s : String) :
    (s ∉ apptStatusStrings →
      updateAppointmentStatus db caller id s = (.error ⟨400, "Invalid status"⟩, db) ∧
      errCategory ⟨400, "Invalid status"⟩ = ErrCategory.invalidArgument) ∧
    ((updateAppointmentStatus db caller id s).1 = .error ⟨404, "Appointment not found"⟩ →
      s ∈ apptStatusStrings) := by
  constructor
  · intro hmem
    have hp : parseApptStatus s = none := (parseApptStatus_eq_none_iff s).2 hmem
    constructor
    · unfold updateAppointmentStatus
      rw [hp]
    · rfl
  · intro h404
    by_contra hs
    have hp : parseApptStatus s = none := (parseApptStatus_eq_none_iff s).2 hs
    unfold updateAppointmentStatus at h404
    rw [hp] at h404
    simp at h404

/-- Witness for C10: with an empty store (so appointment 5 does not
exist) and the out-of-enum status string "bogus", the call still returns
the 400 "Invalid status" response, not 404. -/
theorem claim10_witness :
    updateAppointmentStatus ⟨[], [], [], []⟩ ⟨1, Role.doctor⟩ 5 "bogus" =
      (.error ⟨400, "Invalid status"⟩, ⟨[], [], [], []⟩) ∧
    errCategory ⟨400, "Invalid status"⟩ = ErrCategory.invalidArgument :=
  (claim10_enum_checked_before_lookup ⟨[], [], [], []⟩ ⟨1, Role.doctor⟩ 5 "bogus").1
    (by decide)

/-! ## Claim C4 -/

/-- C4: given that the appointment exists, startConsultation succeeds
exactly when the caller is the owning doctor and the current status is
exactly paid, in which case the stored status becomes consultation and a
second startConsultation call on the resulting store fails with the 400
"must be paid" response (FailedPrecondition); a call by a non-owning
caller fails with 403 "Not authorized" (Forbidden), and an owning-doctor
call in any status other than paid fails with the 400 "must be paid"
response. -/
theorem startConsultation_eq (db : DB) (caller : User) (aid : Nat) (appt : Appointment)
    (h : findAppt db aid = some appt) :
    startConsultation db caller aid =
      if appt.doctorId ≠ caller.id then (.error ⟨403, "Not authorized"⟩, db)
      else if appt.status ≠ ApptStatus.paid then
        (.error ⟨400, "Appointment must be paid before starting consultation"⟩, db)
      else (.ok { appt with status := ApptStatus.consultation },
            setAppt db { appt with status := ApptStatus.consultation }) := by
  unfold startConsultation
  unfold findAppt at h
  rw [h]

theorem claim4_start_consultation (db : DB) (caller : User) (aid : Nat)
    (appt : Appointment) (h : findAppt db aid = some appt) :
    ((∃ a2, (startConsultation db caller aid).1 = .ok a2) ↔
        (caller.id = appt.doctorId ∧ appt.status = ApptStatus.paid)) ∧
    (caller.id = appt.doctorId → appt.status = ApptStatus.paid →
      (startConsultation db caller aid).1 =
        .ok { appt with status := ApptStatus.consultation } ∧
      findAppt (startConsultation db caller aid).2 aid =
        some { appt with status := ApptStatus.consultation } ∧
      (startConsultation (startConsultation db caller aid).2 caller aid).1 =
        .error ⟨400, "Appointment must be paid before starting consultation"⟩ ∧
      errCategory ⟨400, "Appointment must be paid before starting consultation"⟩ =
        ErrCategory.failedPrecondition) ∧
    (caller.id ≠ appt.doctorId →
      (startConsultation db caller aid).1 = .error ⟨403, "Not authorized"⟩ ∧
      errCategory ⟨403, "Not authorized"⟩ = ErrCategory.forbidden) ∧
    (caller.id = appt.doctorId → appt.status ≠ ApptStatus.paid →
      (startConsultation db caller aid).1 =
        .error ⟨400, "Appointment must be paid before starting consultation"⟩) := by
  have hstep := startConsultation_eq db caller aid appt h
  by_cases hd : appt.doctorId = caller.id
  · by_cases hs : appt.status = ApptStatus.paid
    · have hres : startConsultation db caller aid =
          (.ok { appt with status := ApptStatus.consultation },
           setAppt db { appt with status := ApptStatus.consultation }) := by
        rw [hstep]
        simp [hd, hs]
      have hfind2 : findAppt (startConsultation db caller aid).2 aid =
          some { appt with status := ApptStatus.consultation } := by
        rw [hres]
        exact findAppt_setAppt _ h rfl
      have hsecond : (startConsultation (startConsultation db caller aid).2 caller aid).1 =
          .error ⟨400, "Appointment must be paid before starting consultation"⟩ := by
        rw [startConsultation_eq ((startConsultation db caller aid).2) caller aid _ hfind2]
        simp [hd]
      refine ⟨?_, ?_, ?_, ?_⟩
      · constructor
        · intro _
          exact ⟨hd.symm, hs⟩
        · intro _
          exact ⟨{ appt with status := ApptStatus.consultation }, by rw [hres]⟩
      · intro _ _
        exact ⟨by rw [hres], hfind2, hsecond, rfl⟩
      · intro hne
        exact absurd hd.symm hne
      · intro _ hne
        exact absurd hs hne
    · have hres : startConsultation db caller aid =
          (.error ⟨400, "Appointment must be paid before starting consultation"⟩, db) := by
        rw [hstep]
        simp [hd, hs]
      refine ⟨?_, ?_, ?_, ?_⟩
      · constructor
        · intro hex
          rcases hex with ⟨a2, ha2⟩
          rw [hres] at ha2
          simp at ha2
        · intro hand
          exact absurd hand.2 hs
      · intro _ hp
        exact absurd hp hs
      · intro hne
        exact absurd hd.symm hne
      · intro _ _
        rw [hres]
  · have hres : startConsultation db caller aid = (.error ⟨403, "Not authorized"⟩, db) := by
      rw [hstep]
      simp [hd]
    refine ⟨?_, ?_, ?_, ?_⟩
    · constructor
      · intro hex
        rcases hex with ⟨a2, ha2⟩
        rw [hres] at ha2
        simp at ha2
      · intro hand
        exact absurd hand.1.symm hd
    · intro hc _
      exact absurd hc.symm hd
    · intro _
      exact ⟨by rw [hres], rfl⟩
    · intro hc _
      exact absurd hc.symm hd

/-- Witness for C4: a store with one paid appointment owned by doctor 10;
the doctor's first startConsultation call succeeds and moves it to
consultation, and the immediate second call fails with the 400 "must be
paid" response. -/
theorem claim4_witness :
    (startConsultation
        ⟨[⟨10, Role.doctor⟩, ⟨20, Role.patient⟩],
         [⟨1, 20, 10, 1000, none, ApptStatus.paid, 0⟩], [], []⟩
        ⟨10, Role.doctor⟩ 1).1 =
      .ok ⟨1, 20, 10, 1000, none, ApptStatus.consultation, 0⟩ ∧
    findAppt (startConsultation
        ⟨[⟨10, Role.doctor⟩, ⟨20, Role.patient⟩],
         [⟨1, 20, 10, 1000, none, ApptStatus.paid, 0⟩], [], []⟩
        ⟨10, Role.doctor⟩ 1).2 1 =
      some ⟨1, 20, 10, 1000, none, ApptStatus.consultation, 0⟩ ∧
    (startConsultation (startConsultation
        ⟨[⟨10, Role.doctor⟩, ⟨20, Role.patient⟩],
         [⟨1, 20, 10, 1000, none, ApptStatus.paid, 0⟩], [], []⟩
        ⟨10, Role.doctor⟩ 1).2 ⟨10, Role.doctor⟩ 1).1 =
      .error ⟨400, "Appointment must be paid before starting consultation"⟩ ∧
    errCategory ⟨400, "Appointment must be paid before starting consultation"⟩ =
      ErrCategory.failedPrecondition :=
  (claim4_start_consultation
      ⟨[⟨10, Role.doctor⟩, ⟨20, Role.patient⟩],
       [⟨1, 20, 10, 1000, none, ApptStatus.paid, 0⟩], [], []⟩
      ⟨10, Role.doctor⟩ 1 ⟨1, 20, 10, 1000, none, ApptStatus.paid, 0⟩
      (by decide)).2.1 rfl rfl

/-! ## Claim C2 -/

theorem updatePaymentStatus_eq (db : DB) (now : Int) (caller : User) (id : Nat)
    (raw : String) (notes : Option String) (st : PayStatus) (p : Payment)
    (hparse : parsePayStatus raw = some st) (hp : findPaymentById db id = some p) :
    updatePaymentStatus db now caller id raw notes =
      if ¬ (p.patientId = caller.id ∨ p.doctorId = caller.id ∨ caller.role = Role.admin) then
        (.error ⟨403, "Not authorized"⟩, db)
      else
        let p2 : Payment :=
          { p with status := st,
                   notes := (match notes with
                             | some n => if n = "" then p.notes else n
                             | none => p.notes),
                   updatedAt := now }
        (.ok p2,
         if st = PayStatus.completed
         then findByIdAndUpdateStatus (setPayment db p2) p2.appointmentId ApptStatus.paid
         else setPayment db p2) := by
  unfold updatePaymentStatus
  unfold findPaymentById at hp
  rw [hparse, hp]

/-- C2: when the caller is the payment's patient, its doctor, or an
admin, updatePaymentStatus(..., "completed") succeeds, the stored
payment's status becomes completed, and the linked appointment's status
is overwritten to paid regardless of its previous value: re-reading the
appointment afterwards yields status paid. -/
theorem claim2_payment_completed_forces_paid (db : DB) (now : Int) (caller : User)
    (pid : Nat) (notes : Option String) (p : Payment) (a : Appointment)
    (hp : findPaymentById db pid = some p)
    (hauth : p.patientId = caller.id ∨ p.doctorId = caller.id ∨ caller.role = Role.admin)
    (ha : findAppt db p.appointmentId = some a) :
    (updatePaymentStatus db now caller pid "completed" notes).1 =
      .ok { p with status := PayStatus.completed,
                   notes := (match notes with
                             | some n => if n = "" then p.notes else n
                             | none => p.notes),
                   updatedAt := now } ∧
    findPaymentById (updatePaymentStatus db now caller pid "completed" notes).2 pid =
      some { p with status := PayStatus.completed,
                    notes := (match notes with
                              | some n => if n = "" then p.notes else n
                              | none => p.notes),
                    updatedAt := now } ∧
    findAppt (updatePaymentStatus db now caller pid "completed" notes).2 p.appointmentId =
      some { a with status := ApptStatus.paid } := by
  have hstep := updatePaymentStatus_eq db now caller pid "completed" notes
    PayStatus.completed p (by decide) hp
  rw [if_neg (fun hn => hn hauth)] at hstep
  simp only [if_pos rfl] at hstep
  refine ⟨?_, ?_, ?_⟩
  · rw [hstep]
  · rw [hstep]
    exact findPaymentById_setPayment _ hp rfl
  · rw [hstep]
    exact findAppt_forceStatus ApptStatus.paid
      (by rw [findAppt_setPayment]; exact ha)

/-- Witness for C2: a pending payment 7 on appointment 1 whose current
status is pending; the owning patient marks it completed; the payment is
completed and re-reading appointment 1 shows paid. -/
theorem claim2_witness :
    (updatePaymentStatus
        ⟨[], [⟨1, 20, 10, 1000, none, ApptStatus.pending, 0⟩],
         [⟨7, 1, 20, 10, 500, "ETB", PayMethod.telebirr, "TXN1", ⟨none, none, none, none⟩,
           "", PayStatus.pending, 0, 0⟩], []⟩
        5 ⟨20, Role.patient⟩ 7 "completed" none).1 =
      .ok ⟨7, 1, 20, 10, 500, "ETB", PayMethod.telebirr, "TXN1", ⟨none, none, none, none⟩,
           "", PayStatus.completed, 0, 5⟩ ∧
    findPaymentById (updatePaymentStatus
        ⟨[], [⟨1, 20, 10, 1000, none, ApptStatus.pending, 0⟩],
         [⟨7, 1, 20, 10, 500, "ETB", PayMethod.telebirr, "TXN1", ⟨none, none, none, none⟩,
           "", PayStatus.pending, 0, 0⟩], []⟩
        5 ⟨20, Role.patient⟩ 7 "completed" none).2 7 =
      some ⟨7, 1, 20, 10, 500, "ETB", PayMethod.telebirr, "TXN1", ⟨none, none, none, none⟩,
            "", PayStatus.completed, 0, 5⟩ ∧
    findAppt (updatePaymentStatus
        ⟨[], [⟨1, 20, 10, 1000, none, ApptStatus.pending, 0⟩],
         [⟨7, 1, 20, 10, 500, "ETB", PayMethod.telebirr, "TXN1", ⟨none, none, none, none⟩,
           "", PayStatus.pending, 0, 0⟩], []⟩
        5 ⟨20, Role.patient⟩ 7 "completed" none).2 1 =
      some ⟨1, 20, 10, 1000, none, ApptStatus.paid, 0⟩ :=
  claim2_payment_completed_forces_paid
    ⟨[], [⟨1, 20, 10, 1000, none, ApptStatus.pending, 0⟩],
     [⟨7, 1, 20, 10, 500, "ETB", PayMethod.telebirr, "TXN1", ⟨none, none, none, none⟩,
       "", PayStatus.pending, 0, 0⟩], []⟩
    5 ⟨20, Role.patient⟩ 7 none
    ⟨7, 1, 20, 10, 500, "ETB", PayMethod.telebirr, "TXN1", ⟨none, none, none, none⟩,
     "", PayStatus.pending, 0, 0⟩
    ⟨1, 20, 10, 1000, none, ApptStatus.pending, 0⟩
    (by decide) (Or.inl rfl) (by decide)

/-! ## Claim C7 -/

theorem createPrescription_eq (db : DB) (now : Int) (caller : User) (aid : Nat)
    (diagnosis : String) (meds : List Medication) (instr fud pnotes : Option String)
    (fid : Nat) (appt : Appointment) (h : findAppt db aid = some appt) :
    createPrescription db now caller aid diagnosis meds instr fud pnotes fid =
      if appt.doctorId ≠ caller.id then
        (.error ⟨403, "Not authorized to create prescription for this appointment"⟩, db)
      else if appt.status ≠ ApptStatus.consultation then
        (.error ⟨400, "Appointment must be in consultation status"⟩, db)
      else
        match db.prescriptions.find? (fun p => p.appointmentId == aid) with
        | some _ => (.error ⟨400, "Prescription already exists for this appointment"⟩, db)
        | none =>
          let p : Prescription :=
            { id := fid, appointmentId := aid, doctorId := caller.id,
              patientId := appt.patientId, diagnosis := diagnosis,
              medications := meds, instructions := instr,
              followUpDate := (match fud with
                               | some s => if s = "" then none else some s
                               | none => none),
              notes := pnotes, status := PrescStatus.active,
              createdAt := now, updatedAt := now }
          if prescriptionDocValid p then
            (.ok p, { db with prescriptions := db.prescriptions ++ [p] })
          else (.error ⟨500, "Server error"⟩, db) := by
  unfold createPrescription
  unfold findAppt at h
  rw [h]

theorem atMostOne_append {l : List Prescription} {p : Prescription}
    (hl : atMostOnePrescPerAppt l)
    (hnone : l.find? (fun q => q.appointmentId == p.appointmentId) = none) :
    atMostOnePrescPerAppt (l ++ [p]) := by
  intro aid
  rw [List.filter_append]
  by_cases hi : p.appointmentId = aid
  · have hfil : l.filter (fun q => q.appointmentId == aid) = [] := by
      rw [List.filter_eq_nil_iff]
      intro q hq
      have hq2 := List.find?_eq_none.mp hnone q hq
      simpa [hi] using hq2
    rw [hfil]
    simp [hi]
  · have hone : List.filter (fun q => q.appointmentId == aid) [p] = [] := by
      simp [hi]
    rw [hone, List.append_nil]
    exact hl aid

/-- C7: for a createPrescription call by the owning doctor on an
existing appointment: if the status is not consultation the call fails
with the 400 "must be in consultation status" response
(FailedPrecondition); if the status is consultation but a prescription
already exists for the appointment, the call fails with the 400
"Prescription already exists" response (Conflict / AlreadyExists); and
the operation preserves the at-most-one-prescription-per-appointment
invariant. -/
theorem claim7_create_prescription (db : DB) (now : Int) (caller : User) (aid : Nat)
    (diagnosis : String) (meds : List Medication) (instr fud pnotes : Option String)
    (fid : Nat) (appt : Appointment)
    (h : findAppt db aid = some appt) (hown : caller.id = appt.doctorId) :
    (appt.status ≠ ApptStatus.consultation →
      createPrescription db now caller aid diagnosis meds instr fud pnotes fid =
        (.error ⟨400, "Appointment must be in consultation status"⟩, db) ∧
      errCategory ⟨400, "Appointment must be in consultation status"⟩ =
        ErrCategory.failedPrecondition) ∧
    (∀ q : Prescription, findPrescByAppt db aid = some q →
      appt.status = ApptStatus.consultation →
      createPrescription db now caller aid diagnosis meds instr fud pnotes fid =
        (.error ⟨400, "Prescription already exists for this appointment"⟩, db) ∧
      errCategory ⟨400, "Prescription already exists for this appointment"⟩ =
        ErrCategory.conflict) ∧
    (atMostOnePrescPerAppt db.prescriptions →
      atMostOnePrescPerAppt
        (createPrescription db now caller aid diagnosis meds instr fud pnotes fid).2.prescriptions) := by
  have hstep := createPrescription_eq db now caller aid diagnosis meds instr fud pnotes fid appt h
  rw [if_neg (fun hne => hne hown.symm)] at hstep
  by_cases hs : appt.status = ApptStatus.consultation
  · rw [if_neg (fun hne => hne hs)] at hstep
    cases hfind : db.prescriptions.find? (fun p => p.appointmentId == aid) with
    | some q0 =>
      simp only [hfind] at hstep
      refine ⟨fun hne => absurd hs hne, fun q hq _ => ⟨hstep, rfl⟩, fun hone => ?_⟩
      rw [hstep]
      exact hone
    | none =>
      simp only [hfind] at hstep
      refine ⟨fun hne => absurd hs hne, fun q hq _ => ?_, fun hone => ?_⟩
      · unfold findPrescByAppt at hq
        rw [hfind] at hq
        exact absurd hq (by simp)
      · rw [hstep]
        split
        · exact atMostOne_append hone hfind
        · exact hone
  · rw [if_pos hs] at hstep
    refine ⟨fun _ => ⟨hstep, rfl⟩, fun q hq hc => absurd hc hs, fun hone => ?_⟩
    rw [hstep]
    exact hone

/-- Witness for C7: appointment 1 is in consultation with owning doctor
10 and prescription 5 already exists for it; the doctor's second
createPrescription call fails with the 400 "Prescription already
exists" response. -/
theorem claim7_witness :
    createPrescription
        ⟨[], [⟨1, 20, 10, 1000, none, ApptStatus.consultation, 0⟩], [],
         [⟨5, 1, 10, 20, "Flu", [⟨"Paracetamol", "500mg", "2x per day", "5 days", none, none⟩],
           none, none, none, PrescStatus.active, 0, 0⟩]⟩
        3 ⟨10, Role.doctor⟩ 1 "Cold" [] none none none 9 =
      (.error ⟨400, "Prescription already exists for this appointment"⟩,
       ⟨[], [⟨1, 20, 10, 1000, none, ApptStatus.consultation, 0⟩], [],
        [⟨5, 1, 10, 20, "Flu", [⟨"Paracetamol", "500mg", "2x per day", "5 days", none, none⟩],
          none, none, none, PrescStatus.active, 0, 0⟩]⟩) ∧
    errCategory ⟨400, "Prescription already exists for this appointment"⟩ =
      ErrCategory.conflict :=
  (claim7_create_prescription
      ⟨[], [⟨1, 20, 10, 1000, none, ApptStatus.consultation, 0⟩], [],
       [⟨5, 1, 10, 20, "Flu", [⟨"Paracetamol", "500mg", "2x per day", "5 days", none, none⟩],
         none, none, none, PrescStatus.active, 0, 0⟩]⟩
      3 ⟨10, Role.doctor⟩ 1 "Cold" [] none none none 9
      ⟨1, 20, 10, 1000, none, ApptStatus.consultation, 0⟩
      (by decide) rfl).2.1
    ⟨5, 1, 10, 20, "Flu", [⟨"Paracetamol", "500mg", "2x per day", "5 days", none, none⟩],
     none, none, none, PrescStatus.active, 0, 0⟩
    (by decide) rfl

/-! ## Claim C3 -/

theorem createPayment_eq (db : DB) (now : Int) (caller : User) (aid : Nat)
    (method : PayMethod) (details : PaymentDetails) (freshTxn : String) (fid : Nat)
    (appt : Appointment) (h : findAppt db aid = some appt) :
    createPayment db now caller aid method details freshTxn fid =
      if appt.patientId ≠ caller.id then
        (.error ⟨403, "Not authorized to pay for this appointment"⟩, db)
      else if appt.status ≠ ApptStatus.confirmed then
        (.error ⟨400, "Appointment must be confirmed before payment"⟩, db)
      else
        match db.payments.find? (fun p => p.appointmentId == aid) with
        | some ex =>
          if ex.status = PayStatus.completed then
            (.error ⟨400, "Payment already completed for this appointment"⟩, db)
          else if ex.status = PayStatus.pending then
            (.error ⟨400, "Payment already exists for this appointment"⟩, db)
          else
            let ex2 := { ex with paymentMethod := method,
                                 paymentDetails := details,
                                 transactionId := freshTxn,
                                 status := PayStatus.pending,
                                 notes := "", updatedAt := now }
            if db.payments.any (fun q => decide (q.id ≠ ex.id) && (q.transactionId == freshTxn)) then
              (.error ⟨500, "Server error"⟩, db)
            else (.ok ex2, setPayment db ex2)
        | none =>
          let p : Payment :=
            { id := fid, appointmentId := aid,
              patientId := caller.id, doctorId := appt.doctorId,
              amount := baseAmount, currency := "ETB",
              paymentMethod := method, transactionId := freshTxn,
              paymentDetails := details, notes := "",
              status := PayStatus.pending, createdAt := now, updatedAt := now }
          if db.payments.any (fun q => q.transactionId == freshTxn) then
            (.error ⟨500, "Server error"⟩, db)
          else (.ok p, { db with payments := db.payments ++ [p] }) := by
  unfold createPayment
  unfold findAppt at h
  rw [h]

/-- C3: for a createPayment call by the owning patient on an existing
appointment: if the status is not confirmed the call fails with the 400
"must be confirmed" response (FailedPrecondition); in confirmed state,
when no payment exists for the appointment (and the generated
transactionId is store-unique) a new payment is created with status
pending, the fixed amount and the fresh transactionId; when the
existing payment is completed the call is rejected as already paid
(FailedPrecondition); when it is pending the call is rejected as a
duplicate (Conflict); when it is failed or cancelled the same record
(same id) has its method, details and transactionId overwritten and its
status reset to pending. -/
theorem claim3_create_payment (db : DB) (now : Int) (caller : User) (aid : Nat)
    (method : PayMethod) (details : PaymentDetails) (freshTxn : String) (fid : Nat)
    (appt : Appointment)
    (ha : findAppt db aid = some appt) (hown : appt.patientId = caller.id) :
    (appt.status ≠ ApptStatus.confirmed →
      createPayment db now caller aid method details freshTxn fid =
        (.error ⟨400, "Appointment must be confirmed before payment"⟩, db) ∧
      errCategory ⟨400, "Appointment must be confirmed before payment"⟩ =
        ErrCategory.failedPrecondition) ∧
    (appt.status = ApptStatus.confirmed →
      findPaymentByAppt db aid = none →
      db.payments.any (fun q => q.transactionId == freshTxn) = false →
      createPayment db now caller aid method details freshTxn fid =
        (.ok { id := fid, appointmentId := aid,
               patientId := caller.id, doctorId := appt.doctorId,
               amount := baseAmount, currency := "ETB",
               paymentMethod := method, transactionId := freshTxn,
               paymentDetails := details, notes := "",
               status := PayStatus.pending, createdAt := now, updatedAt := now },
         { db with payments := db.payments ++
             [{ id := fid, appointmentId := aid,
                patientId := caller.id, doctorId := appt.doctorId,
                amount := baseAmount, currency := "ETB",
                paymentMethod := method, transactionId := freshTxn,
                paymentDetails := details, notes := "",
                status := PayStatus.pending, createdAt := now, updatedAt := now }] })) ∧
    (∀ ex : Payment, findPaymentByAppt db aid = some ex →
      appt.status = ApptStatus.confirmed → ex.status = PayStatus.completed →
      createPayment db now caller aid method details freshTxn fid =
        (.error ⟨400, "Payment already completed for this appointment"⟩, db) ∧
      errCategory ⟨400, "Payment already completed for this appointment"⟩ =
        ErrCategory.failedPrecondition) ∧
    (∀ ex : Payment, findPaymentByAppt db aid = some ex →
      appt.status = ApptStatus.confirmed → ex.status = PayStatus.pending →
      createPayment db now caller aid method details freshTxn fid =
        (.error ⟨400, "Payment already exists for this appointment"⟩, db) ∧
      errCategory ⟨400, "Payment already exists for this appointment"⟩ =
        ErrCategory.conflict) ∧
    (∀ ex : Payment, findPaymentByAppt db aid = some ex →
      appt.status = ApptStatus.confirmed →
      (ex.status = PayStatus.failed ∨ ex.status = PayStatus.cancelled) →
      db.payments.any (fun q => decide (q.id ≠ ex.id) && (q.transactionId == freshTxn)) = false →
      createPayment db now caller aid method details freshTxn fid =
        (.ok { ex with paymentMethod := method,
                       paymentDetails := details,
                       transactionId := freshTxn,
                       status := PayStatus.pending,
                       notes := "", updatedAt := now },
         setPayment db { ex with paymentMethod := method,
                                 paymentDetails := details,
                                 transactionId := freshTxn,
                                 status := PayStatus.pending,
                                 notes := "", updatedAt := now })) := by
  have hstep := createPayment_eq db now caller aid method details freshTxn fid appt ha
  rw [if_neg (fun hne => hne hown)] at hstep
  by_cases hs : appt.status = ApptStatus.confirmed
  · rw [if_neg (fun hne => hne hs)] at hstep
    cases hfind : db.payments.find? (fun p => p.appointmentId == aid) with
    | some ex0 =>
      simp only [hfind] at hstep
      refine ⟨fun hne => absurd hs hne, fun _ hnone _ => ?_, fun ex hex _ hc => ?_,
        fun ex hex _ hc => ?_, fun ex hex _ hc hcol => ?_⟩
      · unfold findPaymentByAppt at hnone
        rw [hfind] at hnone
        exact absurd hnone (by simp)
      · unfold findPaymentByAppt at hex
        rw [hfind] at hex
        have hexeq : ex0 = ex := by simpa using hex
        subst hexeq
        rw [if_pos hc] at hstep
        exact ⟨hstep, rfl⟩
      · unfold findPaymentByAppt at hex
        rw [hfind] at hex
        have hexeq : ex0 = ex := by simpa using hex
        subst hexeq
        have hnc : ex0.status ≠ PayStatus.completed := by
          rw [hc]
          exact fun hh => by cases hh
        rw [if_neg hnc, if_pos hc] at hstep
        exact ⟨hstep, rfl⟩
      · unfold findPaymentByAppt at hex
        rw [hfind] at hex
        have hexeq : ex0 = ex := by simpa using hex
        subst hexeq
        have hnc : ex0.status ≠ PayStatus.completed := by
          rcases hc with hc | hc <;> rw [hc] <;> exact fun hh => by cases hh
        have hnp : ex0.status ≠ PayStatus.pending := by
          rcases hc with hc | hc <;> rw [hc] <;> exact fun hh => by cases hh
        rw [if_neg hnc, if_neg hnp,
          if_neg (fun hh => Bool.false_ne_true (hcol.symm.trans hh))] at hstep
        exact hstep
    | none =>
      simp only [hfind] at hstep
      refine ⟨fun hne => absurd hs hne, fun _ _ hcol => ?_, fun ex hex => ?_,
        fun ex hex => ?_, fun ex hex => ?_⟩
      · rw [if_neg (fun hh => Bool.false_ne_true (hcol.symm.trans hh))] at hstep
        exact hstep
      all_goals
        unfold findPaymentByAppt at hex
        rw [hfind] at hex
        exact absurd hex (by simp)
  · rw [if_pos hs] at hstep
    exact ⟨fun _ => ⟨hstep, rfl⟩, fun hc => absurd hc hs,
      fun ex hex hc => absurd hc hs, fun ex hex hc => absurd hc hs,
      fun ex hex hc => absurd hc hs⟩

/-- Witness for C3: appointment 1 is confirmed for patient 20 and no
payment exists; the patient's createPayment call creates payment 7 with
status pending, the fixed fee of 500 and the fresh transaction id. -/
theorem claim3_witness :
    createPayment
        ⟨[], [⟨1, 20, 10, 1000, none, ApptStatus.confirmed, 0⟩], [], []⟩
        2 ⟨20, Role.patient⟩ 1 PayMethod.telebirr ⟨some "0911", none, none, none⟩ "TXN9" 7 =
      (.ok ⟨7, 1, 20, 10, baseAmount, "ETB", PayMethod.telebirr, "TXN9",
            ⟨some "0911", none, none, none⟩, "", PayStatus.pending, 2, 2⟩,
       ⟨[], [⟨1, 20, 10, 1000, none, ApptStatus.confirmed, 0⟩],
        [⟨7, 1, 20, 10, baseAmount, "ETB", PayMethod.telebirr, "TXN9",
          ⟨some "0911", none, none, none⟩, "", PayStatus.pending, 2, 2⟩], []⟩) :=
  (claim3_create_payment
      ⟨[], [⟨1, 20, 10, 1000, none, ApptStatus.confirmed, 0⟩], [], []⟩
      2 ⟨20, Role.patient⟩ 1 PayMethod.telebirr ⟨some "0911", none, none, none⟩ "TXN9" 7
      ⟨1, 20, 10, 1000, none, ApptStatus.confirmed, 0⟩
      (by decide) rfl).2.1 rfl (by decide) rfl

/-! ## Claim C1 -/

/-- Counterexample to C1: appointment 1 is in pending status; its doctor
calls updateStatus with "completed" and the call succeeds, storing
status completed — a jump from pending straight to completed, which is
not an edge of the section 4.1 transition graph. -/
theorem claim1_counterexample :
    findAppt ⟨[], [⟨1, 20, 10, 1000, none, ApptStatus.pending, 0⟩], [], []⟩ 1 =
      some ⟨1, 20, 10, 1000, none, ApptStatus.pending, 0⟩ ∧
    (updateAppointmentStatus ⟨[], [⟨1, 20, 10, 1000, none, ApptStatus.pending, 0⟩], [], []⟩
        ⟨10, Role.doctor⟩ 1 "completed").1 =
      .ok ⟨1, 20, 10, 1000, none, ApptStatus.completed, 0⟩ ∧
    findAppt (updateAppointmentStatus ⟨[], [⟨1, 20, 10, 1000, none, ApptStatus.pending, 0⟩], [], []⟩
        ⟨10, Role.doctor⟩ 1 "completed").2 1 =
      some ⟨1, 20, 10, 1000, none, ApptStatus.completed, 0⟩ ∧
    specAllowedTransition ApptStatus.pending ApptStatus.completed = false := by
  decide

/-- C1 (amended): updateStatus does not consult the appointment's
current status at all: for the owning doctor and any status string of
the enum, the call succeeds and overwrites the stored status with the
requested one, whatever the previous status was — so transitions outside
the section 4.1 graph (state skips, and cancellation from any state) are
permitted by the Lifecycle Controller's updateStatus operation. -/
theorem claim1_update_status_unrestricted (db : DB) (caller : User) (id : Nat)
    (s : String) (st : ApptStatus) (appt : Appointment)
    (hparse : parseApptStatus s = some st)
    (h : findAppt db id = some appt) (hown : appt.doctorId = caller.id) :
    (updateAppointmentStatus db caller id s).1 = .ok { appt with status := st } ∧
    findAppt (updateAppointmentStatus db caller id s).2 id =
      some { appt with status := st } := by
  have hset := findAppt_setAppt { appt with status := st } h rfl
  constructor
  · unfold updateAppointmentStatus
    unfold findAppt at h
    simp only [hparse, h]
    rw [if_neg (fun hne => hne hown)]
  · unfold updateAppointmentStatus
    unfold findAppt at h
    simp only [hparse, h]
    rw [if_neg (fun hne => hne hown)]
    exact hset

/-- Witness for C1 (amended): the doctor moves a pending appointment
directly to completed. -/
theorem claim1_witness :
    (updateAppointmentStatus ⟨[], [⟨1, 20, 10, 1000, none, ApptStatus.pending, 0⟩], [], []⟩
        ⟨10, Role.doctor⟩ 1 "completed").1 =
      .ok ⟨1, 20, 10, 1000, none, ApptStatus.completed, 0⟩ ∧
    findAppt (updateAppointmentStatus ⟨[], [⟨1, 20, 10, 1000, none, ApptStatus.pending, 0⟩], [], []⟩
        ⟨10, Role.doctor⟩ 1 "completed").2 1 =
      some ⟨1, 20, 10, 1000, none, ApptStatus.completed, 0⟩ :=
  claim1_update_status_unrestricted
    ⟨[], [⟨1, 20, 10, 1000, none, ApptStatus.pending, 0⟩], [], []⟩
    ⟨10, Role.doctor⟩ 1 "completed" ApptStatus.completed
    ⟨1, 20, 10, 1000, none, ApptStatus.pending, 0⟩
    (by decide) (by decide) rfl

/-! ## Claim C5 -/

/-- Counterexample to C5: doctor 10 already has a non-cancelled (paid)
appointment at instant 1000000; a second patient books the very same
instant and the call succeeds, leaving two non-cancelled appointments of
doctor 10 inside the ±30-minute window. -/
theorem claim5_counterexample :
    (bookAppointment
        ⟨[⟨10, Role.doctor⟩, ⟨20, Role.patient⟩, ⟨21, Role.patient⟩],
         [⟨1, 20, 10, 1000000, none, ApptStatus.paid, 0⟩], [], []⟩
        0 ⟨21, Role.patient⟩ 10 1000000 none 2).1 =
      .ok ⟨2, 21, 10, 1000000, none, ApptStatus.pending, 0⟩ ∧
    ((bookAppointment
        ⟨[⟨10, Role.doctor⟩, ⟨20, Role.patient⟩, ⟨21, Role.patient⟩],
         [⟨1, 20, 10, 1000000, none, ApptStatus.paid, 0⟩], [], []⟩
        0 ⟨21, Role.patient⟩ 10 1000000 none 2).2.appointments.filter
      (fun a => a.doctorId == 10 && decide (a.status ≠ ApptStatus.cancelled) &&
        decide ((1000000 : Int) - 30 * 60000 ≤ a.dateTime) &&
        decide (a.dateTime ≤ (1000000 : Int) + 30 * 60000))).length = 2 := by
  decide

/-- C5 (amended): the conflict check of bookAppointment only considers
existing appointments whose status is pending or confirmed: given an
existing doctor and a strictly-future dateTime, the call fails with the
400 "Time slot not available" response (Conflict) — creating nothing —
exactly when some pending-or-confirmed appointment of that doctor has
its dateTime within ±30 minutes of the requested one; appointments in
paid, consultation, completed (or cancelled) status do not block the
slot, so the at-most-one-non-cancelled-appointment-per-window invariant
is not enforced. -/
theorem claim5_conflict_check (db : DB) (now : Int) (caller : User) (did : Nat)
    (dt : Int) (note : Option String) (fid : Nat) (d : User)
    (hd : db.users.find? (fun u => u.id == did) = some d)
    (hrole : d.role = Role.doctor) (hfut : now < dt) :
    (bookAppointment db now caller did dt note fid =
        (.error ⟨400, "Time slot not available"⟩, db) ↔
      ∃ a ∈ db.appointments, a.doctorId = did ∧
        dt - 30 * 60000 ≤ a.dateTime ∧ a.dateTime ≤ dt + 30 * 60000 ∧
        (a.status = ApptStatus.pending ∨ a.status = ApptStatus.confirmed)) ∧
    errCategory ⟨400, "Time slot not available"⟩ = ErrCategory.conflict := by
  constructor
  · unfold bookAppointment
    simp only [hd]
    rw [if_neg (fun hne => hne hrole), if_neg (not_le.mpr hfut)]
    by_cases hc : db.appointments.any (fun a =>
        decide (a.doctorId = did ∧
          dt - 30 * 60000 ≤ a.dateTime ∧ a.dateTime ≤ dt + 30 * 60000 ∧
          (a.status = ApptStatus.pending ∨ a.status = ApptStatus.confirmed))) = true
    · rw [if_pos hc]
      constructor
      · intro _
        simpa [List.any_eq_true] using hc
      · intro _
        rfl
    · rw [if_neg hc]
      constructor
      · intro heq
        exfalso
        have h1 := congrArg Prod.fst heq
        simp at h1
      · intro hex
        exact absurd (by simpa [List.any_eq_true] using hex) hc
  · rfl

/-- Witness for C5 (amended): doctor 10 has a confirmed appointment at
instant 1000000; a booking at instant 1000001 fails with the Conflict
response and the store is unchanged. -/
theorem claim5_witness :
    bookAppointment
        ⟨[⟨10, Role.doctor⟩, ⟨20, Role.patient⟩],
         [⟨1, 20, 10, 1000000, none, ApptStatus.confirmed, 0⟩], [], []⟩
        0 ⟨21, Role.patient⟩ 10 1000001 none 2 =
      (.error ⟨400, "Time slot not available"⟩,
       ⟨[⟨10, Role.doctor⟩, ⟨20, Role.patient⟩],
        [⟨1, 20, 10, 1000000, none, ApptStatus.confirmed, 0⟩], [], []⟩) :=
  ((claim5_conflict_check
      ⟨[⟨10, Role.doctor⟩, ⟨20, Role.patient⟩],
       [⟨1, 20, 10, 1000000, none, ApptStatus.confirmed, 0⟩], [], []⟩
      0 ⟨21, Role.patient⟩ 10 1000001 none 2 ⟨10, Role.doctor⟩
      (by decide) rfl (by decide)).1).mpr
    ⟨⟨1, 20, 10, 1000000, none, ApptStatus.confirmed, 0⟩, by decide⟩

/-! ## Claim C6 -/

/-- Counterexample to C6: a booking whose dateTime (500) is before now
(1000) but whose doctorId matches no user fails with the 404 "Doctor not
found" response — NotFound, not the InvalidArgument the claim predicts
for every past-dated call. -/
theorem claim6_counterexample :
    bookAppointment ⟨[], [], [], []⟩ 1000 ⟨20, Role.patient⟩ 10 500 none 1 =
      (.error ⟨404, "Doctor not found"⟩, ⟨[], [], [], []⟩) ∧
    (500 : Int) ≤ 1000 ∧
    errCategory ⟨404, "Doctor not found"⟩ = ErrCategory.notFound ∧
    ErrCategory.notFound ≠ ErrCategory.invalidArgument := by
  decide

/-- C6 (amended): when the referenced doctor exists with role doctor,
every bookAppointment call with dateTime ≤ now fails with the 400
"Appointment must be in the future" response (InvalidArgument) and
creates nothing; and regardless of the doctor lookup, every successful
booking has dateTime strictly after now. -/
theorem claim6_past_booking (db : DB) (now : Int) (caller : User) (did : Nat)
    (dt : Int) (note : Option String) (fid : Nat) :
    (∀ d : User, db.users.find? (fun u => u.id == did) = some d →
      d.role = Role.doctor → dt ≤ now →
      bookAppointment db now caller did dt note fid =
        (.error ⟨400, "Appointment must be in the future"⟩, db) ∧
      errCategory ⟨400, "Appointment must be in the future"⟩ =
        ErrCategory.invalidArgument) ∧
    (∀ a : Appointment, (bookAppointment db now caller did dt note fid).1 = .ok a →
      now < dt) := by
  constructor
  · intro d hd hrole hpast
    unfold bookAppointment
    simp only [hd]
    rw [if_neg (fun hne => hne hrole), if_pos hpast]
    exact ⟨rfl, rfl⟩
  · intro a hok
    by_contra hnot
    have hpast : dt ≤ now := not_lt.mp hnot
    unfold bookAppointment at hok
    cases hd : db.users.find? (fun u => u.id == did) with
    | none =>
      simp only [hd] at hok
      simp at hok
    | some d =>
      simp only [hd] at hok
      by_cases hrole : d.role = Role.doctor
      · rw [if_neg (fun hne => hne hrole), if_pos hpast] at hok
        simp at hok
      · rw [if_pos hrole] at hok
        simp at hok

/-- Witness for C6 (amended): doctor 10 exists; a booking dated 500 with
now = 1000 fails with the 400 "Appointment must be in the future"
response and the store is unchanged. -/
theorem claim6_witness :
    bookAppointment ⟨[⟨10, Role.doctor⟩], [], [], []⟩ 1000 ⟨20, Role.patient⟩ 10 500 none 1 =
      (.error ⟨400, "Appointment must be in the future"⟩,
       ⟨[⟨10, Role.doctor⟩], [], [], []⟩) ∧
    errCategory ⟨400, "Appointment must be in the future"⟩ =
      ErrCategory.invalidArgument :=
  (claim6_past_booking ⟨[⟨10, Role.doctor⟩], [], [], []⟩ 1000 ⟨20, Role.patient⟩ 10 500 none 1).1
    ⟨10, Role.doctor⟩ (by decide) rfl (by decide)

/-! ## Claim C9 -/

/-- Counterexample to C9: prescription 5 stores one medication; the
owning doctor submits an update whose medications field is present but
empty ([]), all other fields absent. The claim says an empty field is
left unchanged, but the call succeeds and the stored medications list is
overwritten with the empty list. -/
theorem claim9_counterexample :
    (findPrescById
        ⟨[], [], [],
         [⟨5, 1, 10, 20, "Flu", [⟨"Paracetamol", "500mg", "2x per day", "5 days", none, none⟩],
           none, none, none, PrescStatus.active, 0, 0⟩]⟩ 5).map (fun p => p.medications) =
      some [⟨"Paracetamol", "500mg", "2x per day", "5 days", none, none⟩] ∧
    (updatePrescription
        ⟨[], [], [],
         [⟨5, 1, 10, 20, "Flu", [⟨"Paracetamol", "500mg", "2x per day", "5 days", none, none⟩],
           none, none, none, PrescStatus.active, 0, 0⟩]⟩
        9 ⟨10, Role.doctor⟩ 5 ⟨none, some [], none, none, none, none⟩).1 =
      .ok ⟨5, 1, 10, 20, "Flu", [], none, none, none, PrescStatus.active, 0, 9⟩ ∧
    (findPrescById (updatePrescription
        ⟨[], [], [],
         [⟨5, 1, 10, 20, "Flu", [⟨"Paracetamol", "500mg", "2x per day", "5 days", none, none⟩],
           none, none, none, PrescStatus.active, 0, 0⟩]⟩
        9 ⟨10, Role.doctor⟩ 5 ⟨none, some [], none, none, none, none⟩).2 5).map
      (fun p => p.medications) = some [] := by
  decide

/-- C9 (amended): for the owning doctor or an admin (and an update
passing schema validation), updatePrescription overwrites exactly the
truthy request fields: each string-valued field (diagnosis,
instructions, followUpDate, notes) that is absent or the empty string
leaves the stored value unchanged, and when supplied non-empty it
overwrites; the status field overwrites exactly when present; the
medications field overwrites whenever present in the request — including
when it is the empty list, which does overwrite — and is unchanged only
when absent; identity and ownership fields are never touched. -/
theorem claim9_partial_update (db : DB) (now : Int) (caller : User) (id : Nat)
    (req : PrescriptionUpdateReq) (p : Prescription)
    (h : findPrescById db id = some p)
    (hauth : p.doctorId = caller.id ∨ caller.role = Role.admin)
    (hvalid : prescriptionDocValid (applyPrescriptionUpdate p now req) = true) :
    (updatePrescription db now caller id req).1 = .ok (applyPrescriptionUpdate p now req) ∧
    findPrescById (updatePrescription db now caller id req).2 id =
      some (applyPrescriptionUpdate p now req) ∧
    ((req.diagnosis = none ∨ req.diagnosis = some "") →
      (applyPrescriptionUpdate p now req).diagnosis = p.diagnosis) ∧
    (∀ s, req.diagnosis = some s → s ≠ "" →
      (applyPrescriptionUpdate p now req).diagnosis = s) ∧
    (req.medications = none →
      (applyPrescriptionUpdate p now req).medications = p.medications) ∧
    (∀ ms, req.medications = some ms →
      (applyPrescriptionUpdate p now req).medications = ms) ∧
    ((req.instructions = none ∨ req.instructions = some "") →
      (applyPrescriptionUpdate p now req).instructions = p.instructions) ∧
    (∀ s, req.instructions = some s → s ≠ "" →
      (applyPrescriptionUpdate p now req).instructions = some s) ∧
    ((req.followUpDate = none ∨ req.followUpDate = some "") →
      (applyPrescriptionUpdate p now req).followUpDate = p.followUpDate) ∧
    (∀ s, req.followUpDate = some s → s ≠ "" →
      (applyPrescriptionUpdate p now req).followUpDate = some s) ∧
    ((req.notes = none ∨ req.notes = some "") →
      (applyPrescriptionUpdate p now req).notes = p.notes) ∧
    (∀ s, req.notes = some s → s ≠ "" →
      (applyPrescriptionUpdate p now req).notes = some s) ∧
    (req.status = none → (applyPrescriptionUpdate p now req).status = p.status) ∧
    (∀ st, req.status = some st → (applyPrescriptionUpdate p now req).status = st) ∧
    (applyPrescriptionUpdate p now req).id = p.id ∧
    (applyPrescriptionUpdate p now req).appointmentId = p.appointmentId ∧
    (applyPrescriptionUpdate p now req).doctorId = p.doctorId ∧
    (applyPrescriptionUpdate p now req).patientId = p.patientId := by
  have hres : updatePrescription db now caller id req =
      (.ok (applyPrescriptionUpdate p now req),
       setPrescription db (applyPrescriptionUpdate p now req)) := by
    unfold updatePrescription
    unfold findPrescById at h
    simp only [h]
    rw [if_neg (not_not_intro hauth), if_pos hvalid]
  refine ⟨by rw [hres], ?_, ?_, ?_, ?_, ?_, ?_, ?_, ?_, ?_, ?_, ?_, ?_, ?_, rfl, rfl, rfl, rfl⟩
  · rw [hres]
    exact findPrescById_setPrescription _ h rfl
  · rintro (hh | hh) <;> simp [applyPrescriptionUpdate, hh]
  · intro s hh hne
    simp [applyPrescriptionUpdate, hh, hne]
  · intro hh
    simp [applyPrescriptionUpdate, hh]
  · intro ms hh
    simp [applyPrescriptionUpdate, hh]
  · rintro (hh | hh) <;> simp [applyPrescriptionUpdate, hh]
  · intro s hh hne
    simp [applyPrescriptionUpdate, hh, hne]
  · rintro (hh | hh) <;> simp [applyPrescriptionUpdate, hh]
  · intro s hh hne
    simp [applyPrescriptionUpdate, hh, hne]
  · rintro (hh | hh) <;> simp [applyPrescriptionUpdate, hh]
  · intro s hh hne
    simp [applyPrescriptionUpdate, hh, hne]
  · intro hh
    simp [applyPrescriptionUpdate, hh]
  · intro st hh
    simp [applyPrescriptionUpdate, hh]

/-- Witness for C9 (amended): the doctor updates prescription 5 with an
empty-string diagnosis (left unchanged) and a non-empty instructions
value (overwritten). -/
theorem claim9_witness :
    (updatePrescription
        ⟨[], [], [],
         [⟨5, 1, 10, 20, "Flu", [⟨"Paracetamol", "500mg", "2x per day", "5 days", none, none⟩],
           none, none, some "old", PrescStatus.active, 0, 0⟩]⟩
        4 ⟨10, Role.doctor⟩ 5 ⟨some "", none, some "Rest", none, none, none⟩).1 =
      .ok (applyPrescriptionUpdate
        ⟨5, 1, 10, 20, "Flu", [⟨"Paracetamol", "500mg", "2x per day", "5 days", none, none⟩],
         none, none, some "old", PrescStatus.active, 0, 0⟩
        4 ⟨some "", none, some "Rest", none, none, none⟩) :=
  (claim9_partial_update
      ⟨[], [], [],
       [⟨5, 1, 10, 20, "Flu", [⟨"Paracetamol", "500mg", "2x per day", "5 days", none, none⟩],
         none, none, some "old", PrescStatus.active, 0, 0⟩]⟩
      4 ⟨10, Role.doctor⟩ 5 ⟨some "", none, some "Rest", none, none, none⟩
      ⟨5, 1, 10, 20, "Flu", [⟨"Paracetamol", "500mg", "2x per day", "5 days", none, none⟩],
       none, none, some "old", PrescStatus.active, 0, 0⟩
      (by decide) (Or.inl rfl) (by decide)).1

/-! ## Claim C8 -/

/-- C8: getMyAppointments returns a list sorted by dateTime in ascending
order whose elements are exactly the stored appointments passing the
filter: patient callers see only appointments where they are the
patient, doctor callers only those where they are the doctor, every
returned appointment satisfies the optional status filter (when the
query value is a non-empty string) and the upcoming filter (dateTime at
or after now when the query value is the string "true"), and every
stored appointment passing the filter is returned. -/
theorem claim8_get_my_appointments (db : DB) (now : Int) (caller : User)
    (statusq upcoming : Option String) :
    List.Pairwise dtLE (getMyAppointments db now caller statusq upcoming) ∧
    (∀ a ∈ getMyAppointments db now caller statusq upcoming,
      a ∈ db.appointments ∧
      (caller.role = Role.patient → a.patientId = caller.id) ∧
      (caller.role = Role.doctor → a.doctorId = caller.id) ∧
      (∀ s, statusq = some s → s ≠ "" → a.status.toStr = s) ∧
      (upcoming = some "true" → now ≤ a.dateTime)) ∧
    (∀ a ∈ db.appointments, apptFilterPred now caller statusq upcoming a = true →
      a ∈ getMyAppointments db now caller statusq upcoming) := by
  unfold getMyAppointments
  refine ⟨List.sorted_insertionSort dtLE _, ?_, ?_⟩
  · intro a ha
    have hmem : a ∈ db.appointments.filter (apptFilterPred now caller statusq upcoming) :=
      ((List.perm_insertionSort dtLE _).mem_iff).mp ha
    have hin := (List.mem_filter.mp hmem).1
    have hpred := (List.mem_filter.mp hmem).2
    unfold apptFilterPred at hpred
    rw [Bool.and_eq_true, Bool.and_eq_true] at hpred
    obtain ⟨⟨hrole, hstat⟩, hup⟩ := hpred
    refine ⟨hin, ?_, ?_, ?_, ?_⟩
    · intro hr
      rw [hr] at hrole
      simpa using hrole
    · intro hr
      rw [hr] at hrole
      simpa using hrole
    · intro s hq hne
      simp only [hq] at hstat
      rw [if_neg hne] at hstat
      simpa using hstat
    · intro hq
      rw [hq] at hup
      simpa using hup
  · intro a hin hpred
    exact ((List.perm_insertionSort dtLE _).mem_iff).mpr
      (List.mem_filter.mpr ⟨hin, hpred⟩)

/-- Witness for C8: patient 20 has two appointments stored out of order
(dateTime 50 before dateTime 30 in the collection); the returned listing
is sorted by dateTime ascending. -/
theorem claim8_witness :
    List.Pairwise dtLE (getMyAppointments
      ⟨[], [⟨1, 20, 10, 50, none, ApptStatus.pending, 0⟩,
            ⟨2, 20, 10, 30, none, ApptStatus.confirmed, 0⟩], [], []⟩
      0 ⟨20, Role.patient⟩ none none) :=
  (claim8_get_my_appointments
      ⟨[], [⟨1, 20, 10, 50, none, ApptStatus.pending, 0⟩,
            ⟨2, 20, 10, 30, none, ApptStatus.confirmed, 0⟩], [], []⟩
      0 ⟨20, Role.patient⟩ none none).1
